import Mathlib

/-!
Shallow embedding of the used-car price service
(`backend.py` serving endpoint, `training_model.py` feature schema).

The serving endpoint `predict_price` (backend.py lines 81-136) is embedded
as a pure function from the four module-level artifacts (predictor, two
label encoders, the persisted feature-name list — each `Option`, `none`
meaning the pickle file was absent at startup) and one request to either
an HTTP error or a response.  The opaque regression model is a parameter
of type `List Int → ℚ` (its internals are out of scope; `predict` on a
well-formed numeric row is a pure total computation).
-/

namespace UsedCars

/-- Request body of POST /predict (backend.py `CarPredictionInput`,
lines 62-69): pydantic model with these seven typed fields. -/
structure CarPredictionInput where
  year : Int
  brand : String
  model : String
  mileage : Int
  cv : Int
  fuel_type : String
  transmission : String
deriving Repr, DecidableEq

/-- sklearn `LabelEncoder` as consumed by the serving path: the fitted
state is its `classes_` array (distinct category strings, in fitted
order); `transform` maps a string to its index and raises `ValueError`
on a string not among the classes. -/
structure LabelEncoder where
  classes_ : List String
deriving Repr, DecidableEq

/-- `encoder.transform([s])[0]`: index of `s` in `classes_`, or a
`ValueError` for a previously unseen label. -/
def LabelEncoder.transform1 (le : LabelEncoder) (s : String) : Except String Int :=
  match le.classes_.findIdx? (· = s) with
  | some i => .ok (Int.ofNat i)
  | none => .error "y contains previously unseen labels"

/-- backend.py lines 89-100: `try: transform(...) except ValueError:
use -1`.  The unknown-category condition is recovered locally. -/
def encode_with_fallback (le : LabelEncoder) (s : String) : Int :=
  match le.transform1 s with
  | .ok code => code
  | .error _ => -1

/-- backend.py line 103: `1 if car.transmission == "Automatique" else 0`. -/
def transmission_encode (transmission : String) : Int :=
  if transmission = "Automatique" then 1 else 0

/-- backend.py line 109: `fuel_mapping = {"Essence": 0, "Diesel": 1, "Hybrid": 2}`. -/
def fuel_mapping : List (String × Int) := [("Essence", 0), ("Diesel", 1), ("Hybrid", 2)]

/-- backend.py line 110: `fuel_mapping.get(car.fuel_type, 0)`. -/
def fuel_encode (fuel_type : String) : Int := (fuel_mapping.lookup fuel_type).getD 0

/-- backend.py lines 113-121: the `input_data` dict, in the source's
insertion order.  `age = 2025 - car.year` (line 106) is the value bound
to key `year`. -/
def input_data (be me : LabelEncoder) (car : CarPredictionInput) : List (String × Int) :=
  [("year", 2025 - car.year),
   ("mileage", car.mileage),
   ("cv", car.cv),
   ("fuel_type", fuel_encode car.fuel_type),
   ("transmission", transmission_encode car.transmission),
   ("brand_encoded", encode_with_fallback be car.brand),
   ("model_encoded", encode_with_fallback me car.model)]

/-- Column names requested from the one-row DataFrame that are not among
its columns; pandas raises `KeyError` listing exactly these. -/
def missing_cols (d : List (String × Int)) (names : List String) : List String :=
  names.filter (fun n => (d.lookup n).isNone)

/-- backend.py line 124: `pd.DataFrame([input_data])[feature_names]` —
select the columns named in `names`, in that order; `KeyError` if any
requested column is absent. -/
def reindex (d : List (String × Int)) (names : List String) :
    Except String (List Int) :=
  match missing_cols d names with
  | [] => .ok (names.filterMap (fun n => d.lookup n))
  | missing => .error (toString missing ++ " not in index")

/-- fastapi `HTTPException(status_code=..., detail=...)`. -/
structure HTTPExceptionE where
  status_code : Nat
  detail : String
deriving Repr, DecidableEq

/-- backend.py lines 83-86: the 500 raised when the bundle is incomplete. -/
def service_unavailable : HTTPExceptionE :=
  ⟨500, "Model or encoders not loaded. Run training_model.py first."⟩

/-- backend.py lines 135-136: the generic catch-all,
`HTTPException(status_code=400, detail=f"Prediction error: {e}")`. -/
def prediction_error (msg : String) : HTTPExceptionE :=
  ⟨400, "Prediction error: " ++ msg⟩

/-- The JSON body returned on success (backend.py lines 126-133); the
timestamp field is wall-clock time and is not modelled. -/
structure PredictResponse where
  input : CarPredictionInput
  estimated_price_tnd : Int
  message : String
deriving Repr, DecidableEq

/-- Python `int(...)` applied to a real number: truncation toward zero. -/
def pyInt (q : ℚ) : Int := if 0 ≤ q then ⌊q⌋ else -⌊-q⌋

/-- The opaque fitted regressor: `model.predict` on one numeric row. -/
abbrev Predictor := List Int → ℚ

/-- Body of the `try:` block of backend.py lines 88-134: encode the
fields, build `input_data`, reorder by `feature_names`, predict, clamp
with `int(max(0, prediction))`.  Any exception escaping these steps
(here: the `KeyError` from column selection) is caught by the
`except Exception` clause and mapped to `prediction_error`. -/
def predict_body (m : Predictor) (be me : LabelEncoder) (fns : List String)
    (car : CarPredictionInput) : Except HTTPExceptionE PredictResponse :=
  match reindex (input_data be me car) fns with
  | .error msg => .error (prediction_error msg)
  | .ok vec => .ok ⟨car, pyInt (max 0 (m vec)), "Prediction successful"⟩

/-- backend.py lines 81-136, `predict_price`.  The guard embeds
`if not all([model, brand_encoder, model_encoder, feature_names])`:
each unpickled object is `none` when its file was absent at startup;
a loaded model/encoder object is always truthy, while a loaded Python
list is truthy iff non-empty. -/
def predict_price (model : Option Predictor) (brand_encoder model_encoder : Option LabelEncoder)
    (feature_names : Option (List String)) (car : CarPredictionInput) :
    Except HTTPExceptionE PredictResponse :=
  match model, brand_encoder, model_encoder, feature_names with
  | some m, some be, some me, some fns =>
    if fns.isEmpty then .error service_unavailable
    else predict_body m be me fns car
  | _, _, _, _ => .error service_unavailable

/-- training_model.py line 38: the fixed feature column order, persisted
verbatim to `feature_names.pkl` (lines 113-115). -/
def features : List String :=
  ["year", "mileage", "cv", "fuel_type", "transmission", "brand_encoded", "model_encoded"]

/-- One historical listing from the cleaned CSV consumed by
training_model.py (fuel_type / transmission already numeric there, since
the training script uses those columns directly as features). -/
structure RawRecord where
  price : Int
  year : Int
  brand : String
  model : String
  mileage : Int
  cv : Int
  fuel_type : Int
  transmission : Int
deriving Repr, DecidableEq

/-- training_model.py lines 30-41: the row of `X = df[features]` for one
record — `brand_encoded` / `model_encoded` are the `fit_transform`
outputs for this row's brand/model, the remaining five columns are taken
raw from the record; in particular column `year` holds the raw calendar
year (no age transformation at training time). -/
def training_X_row (brand_encoded model_encoded : Int) (r : RawRecord) :
    List (String × Int) :=
  [("year", r.year),
   ("mileage", r.mileage),
   ("cv", r.cv),
   ("fuel_type", r.fuel_type),
   ("transmission", r.transmission),
   ("brand_encoded", brand_encoded),
   ("model_encoded", model_encoded)]

/-- The feature vector in the authoritative persisted order, written out
field-for-field: age, mileage, cv, fuel code, transmission code, brand
code, model code. -/
def ordered_vector (be me : LabelEncoder) (car : CarPredictionInput) : List Int :=
  [2025 - car.year,
   car.mileage,
   car.cv,
   fuel_encode car.fuel_type,
   transmission_encode car.transmission,
   encode_with_fallback be car.brand,
   encode_with_fallback me car.model]

/-- Modelled from the spec: the output policy the spec claims,
`max(0, round(v))` — to be compared with what the code serves. -/
def spec_price (v : ℚ) : Int := max 0 (round v)

/-- The concrete request of the spec's end-to-end scenario 1. -/
def testCar : CarPredictionInput :=
  ⟨2020, "Kia", "Rio", 85000, 5, "Essence", "Manuelle"⟩

/-! ### Helper lemmas -/

/-- `List.lookup` is invariant under permutation of an association list
with duplicate-free keys (a Python dict's contents do not depend on
insertion order). -/
theorem lookup_eq_of_perm {l₁ l₂ : List (String × Int)}
    (h : l₁.Perm l₂) (hn : (l₁.map Prod.fst).Nodup) (k : String) :
    l₁.lookup k = l₂.lookup k := by
  induction h with
  | nil => rfl
  | cons a p ih =>
    obtain ⟨a1, a2⟩ := a
    simp only [List.map_cons, List.nodup_cons] at hn
    by_cases hk : k = a1
    · simp [List.lookup, hk]
    · simp [List.lookup, beq_false_of_ne hk, ih hn.2]
  | swap x y l =>
    obtain ⟨x1, x2⟩ := x
    obtain ⟨y1, y2⟩ := y
    simp only [List.map_cons, List.nodup_cons, List.mem_cons] at hn
    have hxy : y1 ≠ x1 := fun h => hn.1 (Or.inl h)
    by_cases hk1 : k = y1
    · subst hk1
      simp [List.lookup, beq_false_of_ne hxy]
    · by_cases hk2 : k = x1
      · subst hk2
        simp [List.lookup, beq_false_of_ne hk1]
      · simp [List.lookup, beq_false_of_ne hk1, beq_false_of_ne hk2]
  | trans p1 p2 ih1 ih2 =>
    have hn2 := ((p1.map Prod.fst).nodup_iff).mp hn
    rw [ih1 hn, ih2 hn2]

/-- `reindex` depends on the record only through its lookup function. -/
theorem reindex_congr {d₁ d₂ : List (String × Int)}
    (h : ∀ k, d₁.lookup k = d₂.lookup k) (names : List String) :
    reindex d₁ names = reindex d₂ names := by
  have hmc : missing_cols d₁ names = missing_cols d₂ names := by
    simp only [missing_cols]
    exact List.filter_congr (fun n _ => by rw [h n])
  have hfm : names.filterMap (fun n => d₁.lookup n) =
      names.filterMap (fun n => d₂.lookup n) :=
    List.filterMap_congr (fun n _ => h n)
  simp only [reindex, hmc, hfm]

/-- The keys of the serving-time record are duplicate-free. -/
theorem input_data_keys_nodup (be me : LabelEncoder) (car : CarPredictionInput) :
    ((input_data be me car).map Prod.fst).Nodup := by
  simp [input_data]

/-- Reordering the serving-time record by the persisted feature names
succeeds and yields the feature values in exactly that order. -/
theorem reindex_input_features (be me : LabelEncoder) (car : CarPredictionInput) :
    reindex (input_data be me car) features = .ok (ordered_vector be me car) := by
  simp [reindex, missing_cols, input_data, features, ordered_vector, List.lookup]

/-- With the full bundle loaded (persisted feature list = `features`),
every request succeeds and serves the clamped prediction over the
feature vector in authoritative order. -/
theorem predict_price_loaded (m : Predictor) (be me : LabelEncoder)
    (car : CarPredictionInput) :
    predict_price (some m) (some be) (some me) (some features) car =
      .ok ⟨car, pyInt (max 0 (m (ordered_vector be me car))), "Prediction successful"⟩ := by
  simp [predict_price, predict_body, reindex_input_features,
    show features.isEmpty = false from rfl]

/-- `int(max(0, v))` truncates, and the clamped value is nonnegative,
so it is the floor. -/
theorem pyInt_max_zero (q : ℚ) : pyInt (max 0 q) = ⌊max 0 q⌋ := by
  simp [pyInt, le_max_left]

/-- The served price is never negative. -/
theorem pyInt_max_zero_nonneg (q : ℚ) : 0 ≤ pyInt (max 0 q) := by
  rw [pyInt_max_zero]
  exact Int.floor_nonneg.mpr (le_max_left 0 q)

/-- A request whose year is after the reference year, for exercising the
negative-age path. -/
def futureCar : CarPredictionInput :=
  ⟨2030, "Kia", "Rio", 10, 5, "Diesel", "Automatique"⟩

/-- A request with negative mileage and cv, for exercising the absence
of range validation. -/
def negCar : CarPredictionInput :=
  ⟨2020, "Kia", "Rio", -100, -3, "Essence", "Manuelle"⟩

/-! ### Claims -/

/-- C1: for every request, the feature vector handed to the Predictor is
ordered exactly by the persisted feature-name list, field-for-field:
any insertion-order permutation `d` of the in-memory record reorders to
the same authoritative vector, and the served result is the prediction
over exactly that vector. -/
theorem feature_vector_authoritative_order
    (m : Predictor) (be me : LabelEncoder) (car : CarPredictionInput)
    (d : List (String × Int)) (hd : d.Perm (input_data be me car)) :
    reindex d features = .ok (ordered_vector be me car) ∧
    predict_price (some m) (some be) (some me) (some features) car =
      .ok ⟨car, pyInt (max 0 (m (ordered_vector be me car))), "Prediction successful"⟩ := by
  constructor
  · have hn : (d.map Prod.fst).Nodup :=
      ((hd.map Prod.fst).nodup_iff).mpr (input_data_keys_nodup be me car)
    rw [reindex_congr (lookup_eq_of_perm hd hn) features, reindex_input_features]
  · exact predict_price_loaded m be me car

/-- C1 witness: a record inserted in fully reversed order still reorders
to the authoritative vector. -/
theorem feature_vector_authoritative_order_witness :
    reindex
        [("model_encoded", -1), ("brand_encoded", -1), ("transmission", 0),
         ("fuel_type", 0), ("cv", 5), ("mileage", 85000), ("year", 5)]
        features = .ok (ordered_vector ⟨[]⟩ ⟨[]⟩ testCar) :=
  (feature_vector_authoritative_order (fun _ => 0) ⟨[]⟩ ⟨[]⟩ testCar
    [("model_encoded", -1), ("brand_encoded", -1), ("transmission", 0),
     ("fuel_type", 0), ("cv", 5), ("mileage", 85000), ("year", 5)] (by decide)).1

/-- C2: a category string not among an encoder's trained classes encodes
to the sentinel -1 (the `ValueError` is recovered locally), and with a
loaded bundle every request — in particular one carrying such unknown
brand/model strings — completes with a successful response. -/
theorem unknown_category_sentinel
    (le : LabelEncoder) (s : String) (hs : s ∉ le.classes_)
    (m : Predictor) (be me : LabelEncoder) (car : CarPredictionInput) :
    encode_with_fallback le s = -1 ∧
    predict_price (some m) (some be) (some me) (some features) car =
      .ok ⟨car, pyInt (max 0 (m (ordered_vector be me car))), "Prediction successful"⟩ := by
  refine ⟨?_, predict_price_loaded m be me car⟩
  have hfind : le.classes_.findIdx? (· = s) = none := by
    rw [List.findIdx?_eq_none_iff]
    intro x hx
    simp only [decide_eq_false_iff_not]
    exact fun hxs => hs (hxs ▸ hx)
  simp [encode_with_fallback, LabelEncoder.transform1, hfind]

/-- C2 witness: "UnknownBrandXYZ" unseen by an encoder trained on
["Kia"] encodes to -1. -/
theorem unknown_category_sentinel_witness :
    encode_with_fallback ⟨["Kia"]⟩ "UnknownBrandXYZ" = -1 :=
  (unknown_category_sentinel ⟨["Kia"]⟩ "UnknownBrandXYZ" (by decide)
    (fun _ => 0) ⟨[]⟩ ⟨[]⟩ testCar).1

/-- C3: if any of the four artifacts is absent, every request fails with
the 500 `service_unavailable` error, the outcome does not depend on the
request (the check precedes all per-field processing), and that error is
distinct from every `prediction_error`. -/
theorem missing_bundle_service_unavailable
    (mo : Option Predictor) (be? me? : Option LabelEncoder)
    (fns? : Option (List String))
    (h : mo = none ∨ be? = none ∨ me? = none ∨ fns? = none)
    (car car' : CarPredictionInput) :
    predict_price mo be? me? fns? car = .error service_unavailable ∧
    predict_price mo be? me? fns? car = predict_price mo be? me? fns? car' ∧
    service_unavailable.status_code = 500 ∧
    ∀ msg, service_unavailable ≠ prediction_error msg := by
  have hmain : ∀ c : CarPredictionInput,
      predict_price mo be? me? fns? c = .error service_unavailable := by
    intro c
    cases mo <;> cases be? <;> cases me? <;> cases fns? <;> simp_all [predict_price]
  refine ⟨hmain car, (hmain car).trans (hmain car').symm, rfl, ?_⟩
  intro msg hcontra
  have h400 := congrArg HTTPExceptionE.status_code hcontra
  simp [service_unavailable, prediction_error] at h400

/-- C3 witness: with the model file missing, a concrete request gets the
500 error. -/
theorem missing_bundle_service_unavailable_witness :
    predict_price none (some ⟨[]⟩) (some ⟨[]⟩) (some features) testCar =
      .error service_unavailable :=
  (missing_bundle_service_unavailable none (some ⟨[]⟩) (some ⟨[]⟩) (some features)
    (Or.inl rfl) testCar testCar).1

/-- C4 counterexample: a predictor returning 7.9 is served as 7 — the
code truncates with Python `int(...)` — while the claimed policy
`max(0, round v)` gives 8. -/
theorem served_price_round_counterexample :
    predict_price (some fun _ => (79 : ℚ) / 10) (some ⟨[]⟩) (some ⟨[]⟩)
        (some features) testCar =
      .ok ⟨testCar, 7, "Prediction successful"⟩ ∧
    spec_price ((79 : ℚ) / 10) = 8 ∧ (7 : Int) ≠ 8 := by
  refine ⟨?_, ?_, by decide⟩
  · have hmax : max (0 : ℚ) (79 / 10) = 79 / 10 := max_eq_right (by norm_num)
    rw [predict_price_loaded, pyInt_max_zero]
    norm_num [hmax]
  · norm_num [spec_price, round_eq]

/-- C4 as amended: for any raw output v the served price is
`⌊max 0 v⌋` — truncation of the clamped value, not rounding — and it is
never negative. -/
theorem served_price_clamped_truncated
    (m : Predictor) (be me : LabelEncoder) (car : CarPredictionInput) :
    predict_price (some m) (some be) (some me) (some features) car =
      .ok ⟨car, ⌊max 0 (m (ordered_vector be me car))⌋, "Prediction successful"⟩ ∧
    0 ≤ ⌊max 0 (m (ordered_vector be me car))⌋ := by
  refine ⟨?_, Int.floor_nonneg.mpr (le_max_left 0 _)⟩
  rw [predict_price_loaded, pyInt_max_zero]

/-- C5: the value bound to the "year" slot is 2025 - year for every
integer year; a year after 2025 yields a negative age; and the request
is not rejected for it. -/
theorem age_is_reference_minus_year
    (m : Predictor) (be me : LabelEncoder) (car : CarPredictionInput) :
    (input_data be me car).lookup "year" = some (2025 - car.year) ∧
    (2025 < car.year → 2025 - car.year < 0) ∧
    predict_price (some m) (some be) (some me) (some features) car =
      .ok ⟨car, pyInt (max 0 (m (ordered_vector be me car))), "Prediction successful"⟩ :=
  ⟨by simp [input_data, List.lookup], by omega, predict_price_loaded m be me car⟩

/-- C5 witness: year 2030 gives age -5, and the request still succeeds. -/
theorem age_is_reference_minus_year_witness :
    (input_data ⟨[]⟩ ⟨[]⟩ futureCar).lookup "year" = some (-5) ∧
    2025 - futureCar.year < 0 := by
  have h := age_is_reference_minus_year (fun _ => 0) ⟨[]⟩ ⟨[]⟩ futureCar
  exact ⟨by simpa using h.1, h.2.1 (by decide)⟩

/-- C6: the persisted name list contains "year"; at training time the
"year" column holds the raw calendar year, at serving time the value
bound to "year" is the age 2025 - year, which never equals the calendar
year. -/
theorem year_slot_name_collision (bc mc : Int) (r : RawRecord)
    (be me : LabelEncoder) (car : CarPredictionInput) :
    "year" ∈ features ∧
    (training_X_row bc mc r).lookup "year" = some r.year ∧
    (input_data be me car).lookup "year" = some (2025 - car.year) ∧
    2025 - car.year ≠ car.year :=
  ⟨by decide, by simp [training_X_row, List.lookup],
   by simp [input_data, List.lookup], by omega⟩

/-- C6 witness: concrete check of the collision at year 2020. -/
theorem year_slot_name_collision_witness :
    (training_X_row 0 0 ⟨10000, 2020, "Kia", "Rio", 85000, 5, 0, 0⟩).lookup "year" =
      some 2020 ∧
    (input_data ⟨[]⟩ ⟨[]⟩ testCar).lookup "year" = some 5 := by
  have h := year_slot_name_collision 0 0 ⟨10000, 2020, "Kia", "Rio", 85000, 5, 0, 0⟩
    ⟨[]⟩ ⟨[]⟩ testCar
  exact ⟨h.2.1, by simpa using h.2.2.1⟩

/-- C7: the fuel mapping is total: the three known strings map to 0, 1,
2, every string maps to one of {0,1,2}, and every string outside the
table maps to 0. -/
theorem fuel_mapping_total (s : String) :
    fuel_encode "Essence" = 0 ∧ fuel_encode "Diesel" = 1 ∧ fuel_encode "Hybrid" = 2 ∧
    (fuel_encode s = 0 ∨ fuel_encode s = 1 ∨ fuel_encode s = 2) ∧
    (s ∉ ["Essence", "Diesel", "Hybrid"] → fuel_encode s = 0) := by
  refine ⟨by decide, by decide, by decide, ?_, ?_⟩ <;>
  · by_cases h1 : s = "Essence"
    · simp [fuel_encode, fuel_mapping, List.lookup, h1]
    · by_cases h2 : s = "Diesel"
      · simp [fuel_encode, fuel_mapping, List.lookup, h2, beq_false_of_ne h1]
      · by_cases h3 : s = "Hybrid"
        · simp [fuel_encode, fuel_mapping, List.lookup, h3,
            beq_false_of_ne h1, beq_false_of_ne h2]
        · simp [fuel_encode, fuel_mapping, List.lookup,
            beq_false_of_ne h1, beq_false_of_ne h2, beq_false_of_ne h3]

/-- C7 witness: the out-of-table string "GPL" falls back to 0. -/
theorem fuel_mapping_total_witness : fuel_encode "GPL" = 0 :=
  (fuel_mapping_total "GPL").2.2.2.2 (by decide)

/-- C8: the transmission mapping is binary and total: exactly
"Automatique" maps to 1 and every other string maps to 0. -/
theorem transmission_mapping_binary (s : String) :
    (transmission_encode s = 1 ↔ s = "Automatique") ∧
    (s ≠ "Automatique" → transmission_encode s = 0) ∧
    (transmission_encode s = 0 ∨ transmission_encode s = 1) := by
  by_cases h : s = "Automatique" <;> simp [transmission_encode, h]

/-- C8 witness: "Manuelle" maps to 0. -/
theorem transmission_mapping_binary_witness : transmission_encode "Manuelle" = 0 :=
  (transmission_mapping_binary "Manuelle").2.1 (by decide)

/-- C9 counterexample: when the persisted list names a column the
builder did not provide, the request fails through the generic 400
catch-all `prediction_error` — the very `PredictionError` shape the
claim says it is distinguished from; no separate SchemaMismatch status
exists. -/
theorem schema_mismatch_counterexample :
    predict_price (some fun _ => (0 : ℚ)) (some ⟨[]⟩) (some ⟨[]⟩)
        (some ["extra_feature"]) testCar =
      .error (prediction_error "[extra_feature] not in index") ∧
    prediction_error "[extra_feature] not in index" =
      ⟨400, "Prediction error: [extra_feature] not in index"⟩ := by
  constructor
  · rfl
  · rfl

/-- C9 as amended: a feature name the builder did not receive makes the
request fail fatally, but through the generic 400 `prediction_error`
catch-all. -/
theorem missing_field_generic_prediction_error
    (m : Predictor) (be me : LabelEncoder) (fns : List String)
    (car : CarPredictionInput) (hne : fns ≠ [])
    (n : String) (hn : n ∈ fns)
    (hmiss : (input_data be me car).lookup n = none) :
    ∃ msg, predict_price (some m) (some be) (some me) (some fns) car =
        .error (prediction_error msg) ∧
      (prediction_error msg).status_code = 400 := by
  have hmem : n ∈ missing_cols (input_data be me car) fns :=
    List.mem_filter.mpr ⟨hn, by simp [hmiss]⟩
  have hm : missing_cols (input_data be me car) fns ≠ [] :=
    List.ne_nil_of_mem hmem
  obtain ⟨a, t, hmc⟩ := List.exists_cons_of_ne_nil hm
  obtain ⟨f, ft, rfl⟩ : ∃ f ft, fns = f :: ft := by
    cases fns with
    | nil => exact absurd rfl hne
    | cons f ft => exact ⟨f, ft, rfl⟩
  exact ⟨toString (a :: t) ++ " not in index",
    by simp [predict_price, predict_body, reindex, hmc], rfl⟩

/-- C9 amended witness: a concrete list naming an unprovided column
yields the generic 400 error. -/
theorem missing_field_generic_prediction_error_witness :
    ∃ msg, predict_price (some fun _ => (0 : ℚ)) (some ⟨[]⟩) (some ⟨[]⟩)
        (some ["cv", "unknown_col"]) testCar =
        .error (prediction_error msg) ∧
      (prediction_error msg).status_code = 400 :=
  missing_field_generic_prediction_error (fun _ => 0) ⟨[]⟩ ⟨[]⟩
    ["cv", "unknown_col"] testCar (by decide) "unknown_col" (by decide) (by decide)

/-- C10: with a loaded bundle, negative mileage or cv are not rejected:
the raw values sit at positions 1 and 2 of the feature vector, the
request succeeds, and the served price is a non-negative integer. -/
theorem negative_mileage_cv_passthrough
    (m : Predictor) (be me : LabelEncoder) (car : CarPredictionInput)
    (_h : car.mileage < 0 ∨ car.cv < 0) :
    (ordered_vector be me car)[1]? = some car.mileage ∧
    (ordered_vector be me car)[2]? = some car.cv ∧
    predict_price (some m) (some be) (some me) (some features) car =
      .ok ⟨car, pyInt (max 0 (m (ordered_vector be me car))), "Prediction successful"⟩ ∧
    0 ≤ pyInt (max 0 (m (ordered_vector be me car))) :=
  ⟨by simp [ordered_vector], by simp [ordered_vector],
   predict_price_loaded m be me car, pyInt_max_zero_nonneg _⟩

/-- C10 witness: mileage -100, cv -3 pass through and the request
succeeds with a non-negative price. -/
theorem negative_mileage_cv_passthrough_witness :
    (ordered_vector ⟨[]⟩ ⟨[]⟩ negCar)[1]? = some (-100) ∧
    (ordered_vector ⟨[]⟩ ⟨[]⟩ negCar)[2]? = some (-3) ∧
    predict_price (some fun _ => (-3 : ℚ)) (some ⟨[]⟩) (some ⟨[]⟩)
        (some features) negCar =
      .ok ⟨negCar, pyInt (max 0 ((-3 : ℚ))), "Prediction successful"⟩ ∧
    0 ≤ pyInt (max 0 ((-3 : ℚ))) :=
  negative_mileage_cv_passthrough (fun _ => (-3 : ℚ)) ⟨[]⟩ ⟨[]⟩ negCar
    (Or.inl (by decide))

end UsedCars
